import Mathlib

/-!
Verification of the authentication/authorization subsystem of the
`android_backend` repository (Express + bcrypt + jsonwebtoken + zod),
as a shallow embedding of `src/auth.ts`, `src/auth-routes.ts`,
`src/shared/schema.ts` and the route registrations of `registerRoutes`.

Conventions of the embedding:
* machine time is an explicit `now : Nat` (seconds);
* the bcrypt and jsonwebtoken libraries are external collaborators: they are
  modelled by executable functions that realize exactly the contract the code
  relies on (salt-embedding one-way hash, signed time-limited payload);
* a JavaScript `throw` is an `Except.error`, a rejected store promise is an
  injected `Except.error` argument, so every handler is a total function;
* the Credential Store (`storage.ts`) is a list of user rows, with
  `getUserById` / `getUserByEmail` / `createUser` translated from
  `DatabaseStorage`.
-/

namespace AndroidBackend

/-! ## Password Hasher (model of the external bcrypt library, as used by
`hashPassword` / `comparePasswords` in `auth.ts`) -/

/-- Model of `bcrypt.hash(password, 10)` (`hashPassword` in `auth.ts`):
the output embeds a tag and the per-call salt (here in unary, as a run of
`x`), so that verification can recompute the hash with no side channel. -/
def hashPassword (salt : Nat) (password : String) : String :=
  ⟨['$', '2', 'b', '$'] ++ List.replicate salt 'x' ++ '$' :: password.data⟩

/-- Salt embedded in a modelled bcrypt hash: the run of `x` after the tag. -/
def saltOf (h : String) : Nat :=
  ((h.data.drop 4).takeWhile (fun c => c == 'x')).length

/-- Model of `bcrypt.compare` (`comparePasswords` in `auth.ts`): recompute
the hash of the guess with the salt embedded in `h` and compare. Total:
returns `false` on malformed input, never throws. -/
def comparePasswords (password h : String) : Bool :=
  h == hashPassword (saltOf h) password

/-! ## Token Issuer/Verifier (model of the external jsonwebtoken library,
as used by `generateToken` / `verifyToken` in `auth.ts`) -/

/-- The signing secret from `auth.ts` (`process.env.JWT_SECRET` with its
hardcoded fallback; the fallback value is used here). -/
def JWT_SECRET : String := "your-secret-key-change-in-production"

/-- Decoded JWT payload: `jwt.sign({ id: userId }, ..., { expiresIn: "7d" })`
produces a payload carrying the user id and an expiry timestamp. -/
structure JwtPayload where
  id : Nat
  exp : Nat
deriving DecidableEq

/-- Wire format of a token: either a well-formed signed payload or a
malformed string that does not parse as a JWT at all. -/
inductive Token where
  | signed (payload : JwtPayload) (sig : Nat)
  | malformed (raw : String)
deriving DecidableEq

/-- Numeric code of the signing secret (kept small so that concrete
signatures stay computable). -/
def secretCode : Nat := (JWT_SECRET.data.map Char.toNat).sum

/-- Model of the HMAC signature over the payload: an injective function of
the payload for the fixed process-wide secret. -/
def signatureOf (p : JwtPayload) : Nat :=
  Nat.pair secretCode (Nat.pair p.id p.exp)

/-- Seven days in seconds (`expiresIn: "7d"`). -/
def sevenDays : Nat := 7 * 24 * 60 * 60

/-- `generateToken` from `auth.ts`: sign `{id: userId}` with a 7-day expiry
from issuance time. -/
def generateToken (now : Nat) (userId : Nat) : Token :=
  Token.signed ⟨userId, now + sevenDays⟩ (signatureOf ⟨userId, now + sevenDays⟩)

/-- `verifyToken` from `auth.ts`: `jwt.verify` inside a try/catch, so the
result is `none` (never a thrown error) for a malformed token, a bad
signature, or an expired token. A token is expired when `now ≥ exp`. -/
def verifyToken (now : Nat) : Token → Option JwtPayload
  | Token.malformed _ => none
  | Token.signed p sig =>
      if sig = signatureOf p ∧ now < p.exp then some p else none

/-! ## Credential Store (model of the `users` table of `schema.ts` and the
user operations of `DatabaseStorage` in `storage.ts`) -/

/-- A row of the `users` table (`schema.ts`): serial id, unique email and
phone, password hash, administrative flag (default false), timestamps. -/
structure User where
  id : Nat
  fullName : String
  email : String
  phone : String
  password : String
  isAdmin : Bool
  createdAt : Nat
  updatedAt : Nat
deriving DecidableEq

/-- Insert payload for `storage.createUser` (`InsertUser` of `schema.ts`,
id and timestamps supplied by the store). -/
structure InsertUser where
  fullName : String
  email : String
  phone : String
  password : String
  isAdmin : Bool
deriving DecidableEq

/-- The Credential Store state: the rows of the `users` table. -/
abbrev Store := List User

/-- `DatabaseStorage.getUserById`: first row with the given id. -/
def getUserById (s : Store) (id : Nat) : Option User :=
  s.find? (fun u => u.id == id)

/-- `DatabaseStorage.getUserByEmail`: first row with the given email. -/
def getUserByEmail (s : Store) (email : String) : Option User :=
  s.find? (fun u => u.email == email)

/-- Next value of the serial id sequence. -/
def nextId (s : Store) : Nat :=
  s.foldr (fun u m => max u.id m) 0 + 1

/-- `DatabaseStorage.createUser`: insert a fresh row and return it. -/
def createUser (s : Store) (now : Nat) (d : InsertUser) : Store × User :=
  let u : User :=
    ⟨nextId s, d.fullName, d.email, d.phone, d.password, d.isAdmin, now, now⟩
  (s ++ [u], u)

/-- Number of rows holding a given email. -/
def countEmail (s : Store) (e : String) : Nat :=
  s.countP (fun u => u.email == e)

/-! ## Validation schemas (model of `registerUserSchema` and `loginSchema`
in `schema.ts`, zod semantics) -/

/-- One entry of a `ZodError`'s issue list: the offending field path and
its message. -/
structure ZodIssue where
  path : String
  message : String
deriving DecidableEq

/-- Raw registration request body. The `isAdminField` component stands for
an extraneous `isAdmin` key a client may submit; `registerUserSchema` omits
`isAdmin`, so the parsed output carries no such field. -/
structure RawRegisterPayload where
  fullName : String
  email : String
  phone : String
  password : String
  confirmPassword : String
  isAdminField : Option Bool
deriving DecidableEq

/-- Parsed registration data (`RegisterUser` of `schema.ts`). -/
structure RegisterUser where
  fullName : String
  email : String
  phone : String
  password : String
  confirmPassword : String
deriving DecidableEq

/-- Parsed login data (`LoginCredentials` of `schema.ts`). -/
structure LoginCredentials where
  email : String
  password : String
deriving DecidableEq

/-- Model of zod's `z.string().email()` format check (external library
detail): exactly one `@`, a nonempty local part, no spaces, and a domain
that is nonempty and contains a dot. -/
def emailFormatOk (s : String) : Bool :=
  let cs := s.data
  let domain := (cs.dropWhile (fun c => c != '@')).drop 1
  cs.count '@' == 1 &&
  !(cs.contains ' ') &&
  (cs.takeWhile (fun c => c != '@')).length != 0 &&
  domain.length != 0 &&
  domain.contains '.'

/-- The regex `^\d{10}$` of `registerUserSchema`: exactly ten digits. -/
def phoneFormatOk (s : String) : Bool :=
  s.data.length == 10 && s.data.all (fun c => c.isDigit)

/-- Issue reported for a malformed email. -/
def emailIssue : ZodIssue := ⟨"email", "Please enter a valid email address"⟩

/-- Issue reported for a malformed phone number. -/
def phoneIssue : ZodIssue := ⟨"phone", "Phone number must be 10 digits"⟩

/-- Issue reported for a too-short password. -/
def passwordIssue : ZodIssue := ⟨"password", "Password must be at least 8 characters"⟩

/-- Issue reported by the password-confirmation refinement. -/
def confirmIssue : ZodIssue := ⟨"confirmPassword", "Passwords don\x27t match"⟩

/-- `registerUserSchema.parse` (`schema.ts`): the base object validation
collects one issue per violated field, and the `.refine` comparing
`password` with `confirmPassword` appends its issue afterwards. In zod v3 a
failed string check (`.email()`, `.regex()`, `.min()`) only marks the parse
dirty, and refinements still run on a dirty value — they are skipped only
on an aborted type-level parse, which cannot occur here since every field
of the typed payload is a present string. -/
def registerUserSchema (p : RawRegisterPayload) : Except (List ZodIssue) RegisterUser :=
  let issues :=
    (if emailFormatOk p.email then [] else [emailIssue]) ++
    (if phoneFormatOk p.phone then [] else [phoneIssue]) ++
    (if 8 ≤ p.password.length then [] else [passwordIssue]) ++
    (if p.password == p.confirmPassword then [] else [confirmIssue])
  if issues.isEmpty then
    Except.ok ⟨p.fullName, p.email, p.phone, p.password, p.confirmPassword⟩
  else
    Except.error issues

/-- `loginSchema.parse` (`schema.ts`): email format and nonempty password. -/
def loginSchema (email password : String) : Except (List ZodIssue) LoginCredentials :=
  let issues :=
    (if emailFormatOk email then [] else [emailIssue]) ++
    (if 1 ≤ password.length then [] else [⟨"password", "Password is required"⟩])
  if issues.isEmpty then Except.ok ⟨email, password⟩ else Except.error issues

/-! ## Thrown values -/

/-- A thrown JavaScript value, as discriminated by the route handlers:
a `z.ZodError`, a plain `Error` instance (carrying its message), or a
non-`Error` value. -/
inductive JsError where
  | zodErr (issues : List ZodIssue)
  | jsErr (message : String)
  | nonError (value : String)
deriving DecidableEq

/-! ## Services (`register` and `login` of `auth.ts`) -/

/-- `register` from `auth.ts`: hash the password, create the user with the
administrative flag forced to `false`, issue a token. -/
def register (store : Store) (now salt : Nat) (data : RegisterUser) :
    Store × User × Token :=
  let hashedPassword := hashPassword salt data.password
  let created := createUser store now
    ⟨data.fullName, data.email, data.phone, hashedPassword, false⟩
  (created.1, created.2, generateToken now created.2.id)

/-- `login` from `auth.ts`, with the result of `storage.getUserByEmail`
passed explicitly so that a rejected store promise is representable; the
function's own catch block rethrows every error unchanged. An absent user
and a password mismatch both throw `Error("Invalid email or password")`. -/
def login (emailLookup : Except JsError (Option User)) (creds : LoginCredentials)
    (now : Nat) : Except JsError (User × Token) :=
  match emailLookup with
  | Except.error e => Except.error e
  | Except.ok none => Except.error (JsError.jsErr "Invalid email or password")
  | Except.ok (some user) =>
      if comparePasswords creds.password user.password then
        Except.ok (user, generateToken now user.id)
      else
        Except.error (JsError.jsErr "Invalid email or password")

/-- `login` against a live store (the lookup succeeds). -/
def loginPure (store : Store) (creds : LoginCredentials) (now : Nat) :
    Except JsError (User × Token) :=
  login (Except.ok (getUserByEmail store creds.email)) creds now

/-- Number of bcrypt comparisons `login` performs on the given lookup
outcome (the cost model for the timing of a login attempt): the comparison
runs exactly when a user was found. -/
def loginCompareCount (emailLookup : Except JsError (Option User)) : Nat :=
  match emailLookup with
  | Except.error _ => 0
  | Except.ok none => 0
  | Except.ok (some _) => 1

/-! ## HTTP layer (`auth-routes.ts` and the middleware of `auth.ts`) -/

/-- Response bodies produced by the auth endpoints. -/
inductive Body where
  | msg (message : String)
  | userWrapped (user : User)
  | currentUser (user : Option User)
  | adminFlag (isAdmin : Bool)
  | validation (message : String) (errors : List ZodIssue)
deriving DecidableEq

/-- Effect of a response on the client's `token` cookie. -/
inductive CookieEffect where
  | keep
  | setTok (t : Token)
  | clear
deriving DecidableEq

/-- An HTTP response: status, JSON body, cookie effect. -/
structure Response where
  status : Nat
  body : Body
  cookie : CookieEffect
deriving DecidableEq

/-- Per-request state: the `token` cookie as sent by the client, and the
user attached by the authentication middleware (`req.user`). -/
structure Request where
  cookieToken : Option Token
  user : Option User
deriving DecidableEq

/-- Outcome of a middleware: respond immediately, or call `next()` with the
(possibly updated) request. -/
inductive MwResult where
  | respond (status : Nat) (body : Body)
  | next (req : Request)
deriving DecidableEq

/-- The part of a middleware outcome visible to the client: the response it
produced, or `none` when it passed the request on. -/
def mwDecision : MwResult → Option (Nat × Body)
  | MwResult.respond s b => some (s, b)
  | MwResult.next _ => none

/-- `isAuthenticated` from `auth.ts`, with the outcome of
`storage.getUserById` supplied by `lookup` (a rejected promise lands in the
catch block, which also answers 401). -/
def isAuthenticatedE (lookup : Nat → Except JsError (Option User)) (now : Nat)
    (req : Request) : MwResult :=
  match req.cookieToken with
  | none => MwResult.respond 401 (Body.msg "Unauthorized")
  | some token =>
      match verifyToken now token with
      | none => MwResult.respond 401 (Body.msg "Unauthorized")
      | some decoded =>
          match lookup decoded.id with
          | Except.error _ => MwResult.respond 401 (Body.msg "Unauthorized")
          | Except.ok none => MwResult.respond 401 (Body.msg "Unauthorized")
          | Except.ok (some user) => MwResult.next { req with user := some user }

/-- `isAuthenticated` against a live store. -/
def isAuthenticated (store : Store) (now : Nat) (req : Request) : MwResult :=
  isAuthenticatedE (fun id => Except.ok (getUserById store id)) now req

/-- `isAdmin` from `auth.ts`: `if (!req.user || !req.user.isAdmin)` answer
403, else `next()`. It reads nothing but `req.user`. -/
def isAdmin (req : Request) : MwResult :=
  match req.user with
  | none => MwResult.respond 403 (Body.msg "Forbidden: Admin access required")
  | some user =>
      if user.isAdmin then MwResult.next req
      else MwResult.respond 403 (Body.msg "Forbidden: Admin access required")

/-- `POST /api/auth/register` (`auth-routes.ts`): validate, reject a known
email with 400 before any hashing, otherwise create the user, set the token
cookie and answer 201 with the created record. -/
def registerRoute (store : Store) (now salt : Nat) (p : RawRegisterPayload) :
    Response × Store :=
  match registerUserSchema p with
  | Except.error errors =>
      (⟨400, Body.validation "Validation error" errors, CookieEffect.keep⟩, store)
  | Except.ok validatedData =>
      match getUserByEmail store validatedData.email with
      | some _ =>
          (⟨400, Body.msg "Email already in use", CookieEffect.keep⟩, store)
      | none =>
          let r := register store now salt validatedData
          (⟨201, Body.userWrapped r.2.1, CookieEffect.setTok r.2.2⟩, r.1)

/-- Number of bcrypt hash invocations `registerRoute` performs: the
duplicate-email check happens before hashing, so the duplicate branch
hashes nothing. -/
def registerHashCount (store : Store) (p : RawRegisterPayload) : Nat :=
  match registerUserSchema p with
  | Except.error _ => 0
  | Except.ok validatedData =>
      match getUserByEmail store validatedData.email with
      | some _ => 0
      | none => 1

/-- `POST /api/auth/login` (`auth-routes.ts`): validate, call `login`, then
map a thrown `ZodError` to 400, any other `Error` instance to 401 carrying
the error's own message, and a non-`Error` value to the generic 500. -/
def loginRoute (emailLookup : Except JsError (Option User))
    (email password : String) (now : Nat) : Response :=
  match loginSchema email password with
  | Except.error errors =>
      ⟨400, Body.validation "Validation error" errors, CookieEffect.keep⟩
  | Except.ok validatedData =>
      match login emailLookup validatedData now with
      | Except.ok ut => ⟨200, Body.userWrapped ut.1, CookieEffect.setTok ut.2⟩
      | Except.error (JsError.zodErr issues) =>
          ⟨400, Body.validation "Validation error" issues, CookieEffect.keep⟩
      | Except.error (JsError.jsErr m) => ⟨401, Body.msg m, CookieEffect.keep⟩
      | Except.error (JsError.nonError _) =>
          ⟨500, Body.msg "Failed to login", CookieEffect.keep⟩

/-- `POST /api/auth/login` against a live store. -/
def loginRoutePure (store : Store) (email password : String) (now : Nat) : Response :=
  loginRoute (Except.ok (getUserByEmail store email)) email password now

/-- `POST /api/auth/logout` (`auth-routes.ts`): clear the cookie, answer
200, no middleware, no condition on the request. -/
def logoutRoute (_req : Request) : Response :=
  ⟨200, Body.msg "Logged out successfully", CookieEffect.clear⟩

/-- `GET /api/auth/user` (`auth-routes.ts`): `isAuthenticated`, then the
handler returns `req.user`. -/
def userEndpoint (store : Store) (now : Nat) (req : Request) : Response :=
  match isAuthenticated store now req with
  | MwResult.respond s b => ⟨s, b, CookieEffect.keep⟩
  | MwResult.next req2 => ⟨200, Body.currentUser req2.user, CookieEffect.keep⟩

/-- `GET /api/auth/admin` (`auth-routes.ts`): `isAuthenticated`, then
`isAdmin`, then the handler answers `{isAdmin: true}`. -/
def adminEndpoint (store : Store) (now : Nat) (req : Request) : Response :=
  match isAuthenticated store now req with
  | MwResult.respond s b => ⟨s, b, CookieEffect.keep⟩
  | MwResult.next req2 =>
      match isAdmin req2 with
      | MwResult.respond s b => ⟨s, b, CookieEffect.keep⟩
      | MwResult.next _ => ⟨200, Body.adminFlag true, CookieEffect.keep⟩

/-- Effect of a response's cookie directive on the client's cookie jar. -/
def applyCookie (jar : Option Token) : CookieEffect → Option Token
  | CookieEffect.keep => jar
  | CookieEffect.setTok t => some t
  | CookieEffect.clear => none

/-! ## Route registrations (middleware chains of `auth-routes.ts` and
`registerRoutes` in the routes module) -/

/-- Middlewares installed on routes (file-upload middlewares included so
the chains read as in the source). -/
inductive Mw where
  | auth
  | admin
  | uploadSingle
  | uploadMulti
deriving DecidableEq

/-- A registered route: method, path, middleware chain in order. -/
structure RouteDef where
  method : String
  path : String
  middlewares : List Mw
deriving DecidableEq

/-- Every route registered by `auth-routes.ts` and `registerRoutes`, with
its middleware chain in source order. -/
def routeTable : List RouteDef := [
  ⟨"POST", "/api/auth/register", []⟩,
  ⟨"POST", "/api/auth/login", []⟩,
  ⟨"POST", "/api/auth/logout", []⟩,
  ⟨"GET", "/api/auth/user", [Mw.auth]⟩,
  ⟨"GET", "/api/auth/admin", [Mw.auth, Mw.admin]⟩,
  ⟨"GET", "/api/projects", []⟩,
  ⟨"GET", "/api/projects/:id", []⟩,
  ⟨"POST", "/api/projects", [Mw.auth, Mw.admin]⟩,
  ⟨"PUT", "/api/projects/:id", [Mw.auth, Mw.admin]⟩,
  ⟨"DELETE", "/api/projects/:id", [Mw.auth, Mw.admin]⟩,
  ⟨"GET", "/api/media", []⟩,
  ⟨"POST", "/api/media", [Mw.auth, Mw.admin, Mw.uploadSingle]⟩,
  ⟨"DELETE", "/api/media/:id", [Mw.auth, Mw.admin]⟩,
  ⟨"GET", "/api/complaints", [Mw.auth]⟩,
  ⟨"GET", "/api/complaints/stats", [Mw.auth, Mw.admin]⟩,
  ⟨"GET", "/api/complaints/:id", [Mw.auth]⟩,
  ⟨"POST", "/api/complaints", [Mw.auth, Mw.uploadMulti]⟩,
  ⟨"PATCH", "/api/complaints/:id", [Mw.auth, Mw.admin]⟩,
  ⟨"GET", "/api/events", []⟩,
  ⟨"POST", "/api/events", [Mw.auth, Mw.admin]⟩,
  ⟨"DELETE", "/api/events/:id", [Mw.auth, Mw.admin]⟩,
  ⟨"POST", "/api/admin/promote/:userId", [Mw.auth, Mw.admin]⟩]

/-- Scan of a middleware chain: `true` when every occurrence of the
authorization gate is preceded by an occurrence of the authentication gate
(`seen` records whether the authentication gate has appeared yet). -/
def adminPrecededByAuth : Bool → List Mw → Bool
  | _, [] => true
  | seen, Mw.admin :: rest => seen && adminPrecededByAuth seen rest
  | _, Mw.auth :: rest => adminPrecededByAuth true rest
  | seen, _ :: rest => adminPrecededByAuth seen rest

/-- Decidable equality for `Except`, so that concrete runs of the parsers
and services can be checked by evaluation. -/
instance {ε α : Type} [DecidableEq ε] [DecidableEq α] : DecidableEq (Except ε α) := fun a b =>
  match a, b with
  | Except.error x, Except.error y => decidable_of_iff (x = y) (by simp)
  | Except.error _, Except.ok _ => isFalse (by simp)
  | Except.ok _, Except.error _ => isFalse (by simp)
  | Except.ok x, Except.ok y => decidable_of_iff (x = y) (by simp)

/-! ## Helper lemmas about the bcrypt model -/

/-- Scanning the unary salt stops exactly at the separator. -/
theorem takeWhile_replicate_sep (n : Nat) (l : List Char) :
    ((List.replicate n 'x' ++ '$' :: l).takeWhile (fun c => c == 'x')).length = n := by
  induction n with
  | zero => simp [List.takeWhile_cons, show (('$' == 'x') = false) from rfl]
  | succ n ih =>
      rw [List.replicate_succ, List.cons_append, List.takeWhile_cons]
      simp only [show (('x' == 'x') = true) from rfl, if_true, List.length_cons, ih]

/-- The salt embedded by `hashPassword` is recovered by `saltOf`. -/
theorem saltOf_hashPassword (salt : Nat) (pw : String) :
    saltOf (hashPassword salt pw) = salt := by
  show ((List.replicate salt 'x' ++ '$' :: pw.data).takeWhile (fun c => c == 'x')).length = salt
  exact takeWhile_replicate_sep salt pw.data

/-- A freshly hashed password verifies against its own plaintext. -/
theorem comparePasswords_hashPassword (salt : Nat) (pw : String) :
    comparePasswords pw (hashPassword salt pw) = true := by
  unfold comparePasswords
  rw [saltOf_hashPassword]
  exact beq_self_eq_true _

/-- The modelled bcrypt verification accepts exactly the hashed plaintext. -/
theorem comparePasswords_hashPassword_iff (salt : Nat) (guess pw : String) :
    comparePasswords guess (hashPassword salt pw) = true ↔ guess = pw := by
  constructor
  · intro h
    unfold comparePasswords at h
    rw [saltOf_hashPassword] at h
    have he : hashPassword salt pw = hashPassword salt guess := eq_of_beq h
    have hd := congrArg String.data he
    simp only [hashPassword] at hd
    have h1 := List.append_cancel_left hd
    apply String.ext
    symm
    simpa using h1
  · intro h
    rw [h]
    exact comparePasswords_hashPassword salt pw

/-- A modelled bcrypt hash is never equal to its plaintext. -/
theorem hashPassword_ne (salt : Nat) (pw : String) : hashPassword salt pw ≠ pw := by
  intro h
  have hd := congrArg String.data h
  simp only [hashPassword] at hd
  have := congrArg List.length hd
  simp [List.length_append] at this
  omega

/-! ## Helper lemmas about the token model -/

/-- The modelled signature is an injective function of the payload. -/
theorem signatureOf_inj {p q : JwtPayload} (h : signatureOf p = signatureOf q) :
    p = q := by
  unfold signatureOf at h
  rw [Nat.pair_eq_pair] at h
  obtain ⟨-, h2⟩ := h
  rw [Nat.pair_eq_pair] at h2
  cases p
  cases q
  simp_all

/-- Verification immediately after issuance succeeds and returns the issued
payload. -/
theorem verifyToken_generateToken (now id : Nat) :
    verifyToken now (generateToken now id) = some ⟨id, now + sevenDays⟩ := by
  show (if _ ∧ _ then _ else none) = _
  rw [if_pos]
  exact ⟨rfl, show now < now + sevenDays by unfold sevenDays; omega⟩

/-! ## Claim theorems -/

/-- Claim C5: a token issued by `generateToken` and immediately checked by
`verifyToken` decodes to exactly the issued id; a malformed token, a token
with a flipped or otherwise wrong signature, a token whose payload was
tampered with after signing, and a token checked at or past its fixed
7-day expiry all verify to `none` (`verifyToken` is a total function, so it
never throws). -/
theorem token_spec :
    (∀ now id, verifyToken now (generateToken now id) =
      some ⟨id, now + sevenDays⟩) ∧
    (∀ now raw, verifyToken now (Token.malformed raw) = none) ∧
    (∀ now p sig, sig ≠ signatureOf p →
      verifyToken now (Token.signed p sig) = none) ∧
    (∀ now id id2 e, id ≠ id2 →
      verifyToken now (Token.signed ⟨id2, e⟩ (signatureOf ⟨id, e⟩)) = none) ∧
    (∀ issued later id, issued + sevenDays ≤ later →
      verifyToken later (generateToken issued id) = none) := by
  refine ⟨?_, ?_, ?_, ?_, ?_⟩
  · intro now id
    exact verifyToken_generateToken now id
  · intro now raw
    rfl
  · intro now p sig h
    show (if _ ∧ _ then _ else none) = none
    rw [if_neg]
    intro hc
    exact h hc.1
  · intro now id id2 e h
    show (if _ ∧ _ then _ else none) = none
    rw [if_neg]
    intro hc
    exact h (show id = id2 from congrArg JwtPayload.id (signatureOf_inj hc.1))
  · intro issued later id h
    show (if _ ∧ _ then _ else none) = none
    rw [if_neg]
    intro hc
    have h2 : later < issued + sevenDays := hc.2
    omega

/-- Concrete witness for `token_spec`: the roundtrip at id 5, a malformed
string, a signature flipped by one, a payload id tampered from 1 to 2, and
a verification exactly at expiry. -/
theorem token_spec_witness :
    verifyToken 0 (generateToken 0 5) = some ⟨5, 0 + sevenDays⟩ ∧
    verifyToken 0 (Token.malformed "garbage") = none ∧
    verifyToken 0 (Token.signed ⟨1, 10⟩ (signatureOf ⟨1, 10⟩ + 1)) = none ∧
    verifyToken 0 (Token.signed ⟨2, 10⟩ (signatureOf ⟨1, 10⟩)) = none ∧
    verifyToken (0 + sevenDays) (generateToken 0 5) = none :=
  ⟨token_spec.1 0 5, token_spec.2.1 0 "garbage",
   token_spec.2.2.1 0 ⟨1, 10⟩ (signatureOf ⟨1, 10⟩ + 1) (by decide),
   token_spec.2.2.2.1 0 1 2 10 (by decide),
   token_spec.2.2.2.2 0 (0 + sevenDays) 5 (by decide)⟩

/-- Claim C1: the authentication middleware answers 401 Unauthorized exactly
when the token cookie is missing, or the cookie value does not verify, or
the Credential Store holds no user for the decoded id; otherwise it attaches
the resolved user to the request and passes the request on. -/
theorem isAuthenticated_spec (store : Store) (now : Nat) (req : Request) :
    (isAuthenticated store now req = MwResult.respond 401 (Body.msg "Unauthorized") ↔
      req.cookieToken = none ∨
      (∃ t, req.cookieToken = some t ∧ verifyToken now t = none) ∨
      (∃ t d, req.cookieToken = some t ∧ verifyToken now t = some d ∧
        getUserById store d.id = none)) ∧
    (∀ t d u, req.cookieToken = some t → verifyToken now t = some d →
      getUserById store d.id = some u →
      isAuthenticated store now req = MwResult.next { req with user := some u }) := by
  constructor
  · unfold isAuthenticated isAuthenticatedE
    rcases hc : req.cookieToken with _ | t
    · simp [hc]
    · rcases hv : verifyToken now t with _ | d
      · simp [hc, hv]
      · rcases hu : getUserById store d.id with _ | u
        · simp [hc, hv, hu]
        · simp [hc, hv, hu]
  · intro t d u hc hv hu
    unfold isAuthenticated isAuthenticatedE
    rw [hc]
    simp [hv, hu]

/-- Concrete witness for `isAuthenticated_spec`: a request with no cookie is
answered 401. -/
theorem isAuthenticated_spec_witness :
    isAuthenticated [] 0 ⟨none, none⟩ = MwResult.respond 401 (Body.msg "Unauthorized") :=
  (isAuthenticated_spec [] 0 ⟨none, none⟩).1.mpr (Or.inl rfl)

/-- Claim C2: the authorization middleware answers 403 whenever no user is
attached or the attached user's administrative flag is false, and — being a
total function — does not crash on a missing user; with an attached admin
user it passes the request on, and the `/api/auth/admin` endpoint then
answers 200 with `{isAdmin: true}`. -/
theorem isAdmin_spec :
    (∀ req : Request, req.user = none →
      isAdmin req = MwResult.respond 403 (Body.msg "Forbidden: Admin access required")) ∧
    (∀ (req : Request) u, req.user = some u → u.isAdmin = false →
      isAdmin req = MwResult.respond 403 (Body.msg "Forbidden: Admin access required")) ∧
    (∀ (req : Request) u, req.user = some u → u.isAdmin = true →
      isAdmin req = MwResult.next req) ∧
    (∀ store now (req : Request) t d u, req.cookieToken = some t →
      verifyToken now t = some d → getUserById store d.id = some u →
      u.isAdmin = true →
      adminEndpoint store now req = ⟨200, Body.adminFlag true, CookieEffect.keep⟩) := by
  refine ⟨?_, ?_, ?_, ?_⟩
  · intro req h
    unfold isAdmin
    rw [h]
  · intro req u h ha
    unfold isAdmin
    rw [h]
    simp [ha]
  · intro req u h ha
    unfold isAdmin
    rw [h]
    simp [ha]
  · intro store now req t d u hc hv hu ha
    unfold adminEndpoint isAuthenticated isAuthenticatedE
    rw [hc]
    simp [hv, hu, isAdmin, ha]

/-- An administrator row used by concrete runs. -/
def adminUser : User :=
  ⟨1, "Admin", "admin@example.com", "0123456789", hashPassword 1 "password1", true, 0, 0⟩

/-- Concrete witness for `isAdmin_spec`: a request with no attached user is
answered 403, and a request carrying a fresh token of the stored admin is
answered 200 `{isAdmin: true}` by the admin endpoint. -/
theorem isAdmin_spec_witness :
    isAdmin ⟨none, none⟩ = MwResult.respond 403 (Body.msg "Forbidden: Admin access required") ∧
    adminEndpoint [adminUser] 0 ⟨some (generateToken 0 1), none⟩ =
      ⟨200, Body.adminFlag true, CookieEffect.keep⟩ :=
  ⟨isAdmin_spec.1 ⟨none, none⟩ rfl,
   isAdmin_spec.2.2.2 [adminUser] 0 ⟨some (generateToken 0 1), none⟩
     (generateToken 0 1) ⟨1, 0 + sevenDays⟩ adminUser rfl (by decide) (by decide) rfl⟩

/-- Claim C10: logout clears the token cookie unconditionally and always
answers 200 with a confirmation message — the route runs no middleware and
ignores the request entirely — and it is idempotent: a second invocation
yields the same response and the same final cookie state. -/
theorem logout_spec (req1 req2 : Request) (jar : Option Token) :
    logoutRoute req1 = ⟨200, Body.msg "Logged out successfully", CookieEffect.clear⟩ ∧
    applyCookie jar (logoutRoute req1).cookie = none ∧
    logoutRoute req2 = logoutRoute req1 ∧
    applyCookie (applyCookie jar (logoutRoute req1).cookie) (logoutRoute req2).cookie =
      applyCookie jar (logoutRoute req1).cookie ∧
    (⟨"POST", "/api/auth/logout", []⟩ : RouteDef) ∈ routeTable := by
  refine ⟨rfl, rfl, rfl, rfl, by decide⟩

/-- Claim C9: on every registered route whose chain contains the
authorization gate, the authentication gate appears earlier in the chain;
the authorization gate's decision is a function of the attached user alone
(it never reads the cookie, verifies a token, or resolves a user); and on
`/api/auth/admin` the authentication gate decides first: a request with no
cookie gets the authentication gate's 401, not a 403. -/
theorem gate_ordering_spec :
    (∀ r ∈ routeTable, Mw.admin ∈ r.middlewares →
      adminPrecededByAuth false r.middlewares = true) ∧
    (∀ req1 req2 : Request, req1.user = req2.user →
      mwDecision (isAdmin req1) = mwDecision (isAdmin req2)) ∧
    (∀ store now (req : Request), req.cookieToken = none →
      adminEndpoint store now req = ⟨401, Body.msg "Unauthorized", CookieEffect.keep⟩) := by
  refine ⟨by decide, ?_, ?_⟩
  · intro req1 req2 h
    unfold isAdmin
    rw [h]
    rcases hu : req2.user with _ | u
    · rfl
    · by_cases ha : u.isAdmin <;> simp [mwDecision, ha]
  · intro store now req h
    unfold adminEndpoint isAuthenticated isAuthenticatedE
    rw [h]

/-- Concrete witness for `gate_ordering_spec`: the admin endpoint's chain
lists the authentication gate first, and a cookieless request to the admin
endpoint is answered 401 by the authentication gate. -/
theorem gate_ordering_spec_witness :
    adminPrecededByAuth false [Mw.auth, Mw.admin] = true ∧
    adminEndpoint [] 0 ⟨none, none⟩ = ⟨401, Body.msg "Unauthorized", CookieEffect.keep⟩ :=
  ⟨gate_ordering_spec.1 ⟨"GET", "/api/auth/admin", [Mw.auth, Mw.admin]⟩ (by decide) (by decide),
   gate_ordering_spec.2.2 [] 0 ⟨none, none⟩ rfl⟩

/-- Claim C3: for a registration payload the schema accepts, with an email
and a phone unused in the store, the register endpoint appends exactly one
user row; its administrative flag is false whatever the payload's extraneous
admin field said, and its stored password is a hash the verifier accepts
against the submitted plaintext yet differs from that plaintext. -/
theorem register_spec (store : Store) (now salt : Nat) (p : RawRegisterPayload)
    (d : RegisterUser)
    (hparse : registerUserSchema p = Except.ok d)
    (hemail : getUserByEmail store d.email = none)
    (_hphone : ∀ u ∈ store, u.phone ≠ d.phone) :
    ∃ u tok, registerRoute store now salt p =
        (⟨201, Body.userWrapped u, CookieEffect.setTok tok⟩, store ++ [u]) ∧
      u.isAdmin = false ∧
      u.email = d.email ∧
      u.phone = d.phone ∧
      comparePasswords d.password u.password = true ∧
      u.password ≠ d.password := by
  refine ⟨⟨nextId store, d.fullName, d.email, d.phone, hashPassword salt d.password,
      false, now, now⟩, generateToken now (nextId store), ?_, rfl, rfl, rfl,
    comparePasswords_hashPassword salt d.password, hashPassword_ne salt d.password⟩
  unfold registerRoute
  rw [hparse]
  simp only [hemail]
  rfl

/-- A registration payload accepted by the schema; its extraneous admin
field even asks for administrator rights. -/
def regPayload0 : RawRegisterPayload :=
  ⟨"John Doe", "john@example.com", "9876543210", "password1", "password1", some true⟩

/-- The parse result of `regPayload0`. -/
def regData0 : RegisterUser :=
  ⟨"John Doe", "john@example.com", "9876543210", "password1", "password1"⟩

/-- Concrete witness for `register_spec`: registering `regPayload0` against
the empty store. -/
theorem register_spec_witness :
    ∃ u tok, registerRoute [] 0 2 regPayload0 =
        (⟨201, Body.userWrapped u, CookieEffect.setTok tok⟩, [] ++ [u]) ∧
      u.isAdmin = false ∧
      u.email = regData0.email ∧
      u.phone = regData0.phone ∧
      comparePasswords regData0.password u.password = true ∧
      u.password ≠ regData0.password :=
  register_spec [] 0 2 regPayload0 regData0 (by decide) rfl (by simp)

/-- Claim C6: with a payload the schema accepts and a fresh email, the first
registration succeeds and the second registration of the same payload is
rejected 400 with the email-in-use error, leaves the store unchanged,
performs no password hashing (the duplicate check runs before hashing), and
exactly one user with that email exists afterward. -/
theorem register_duplicate_spec (store : Store) (now1 salt1 now2 salt2 : Nat)
    (p : RawRegisterPayload) (d : RegisterUser)
    (hparse : registerUserSchema p = Except.ok d)
    (hemail : getUserByEmail store d.email = none) :
    ∃ u tok, registerRoute store now1 salt1 p =
        (⟨201, Body.userWrapped u, CookieEffect.setTok tok⟩, store ++ [u]) ∧
      registerRoute (store ++ [u]) now2 salt2 p =
        (⟨400, Body.msg "Email already in use", CookieEffect.keep⟩, store ++ [u]) ∧
      registerHashCount (store ++ [u]) p = 0 ∧
      countEmail (store ++ [u]) d.email = 1 := by
  refine ⟨⟨nextId store, d.fullName, d.email, d.phone, hashPassword salt1 d.password,
      false, now1, now1⟩, generateToken now1 (nextId store), ?_, ?_, ?_, ?_⟩
  · unfold registerRoute
    rw [hparse]
    simp only [hemail]
    rfl
  · unfold registerRoute
    rw [hparse]
    have hfind : List.find? (fun v => v.email == d.email)
        (store ++ [(⟨nextId store, d.fullName, d.email, d.phone,
          hashPassword salt1 d.password, false, now1, now1⟩ : User)]) =
        some ⟨nextId store, d.fullName, d.email, d.phone,
          hashPassword salt1 d.password, false, now1, now1⟩ := by
      rw [List.find?_append]
      unfold getUserByEmail at hemail
      rw [hemail]
      simp
    simp only [getUserByEmail, hfind]
  · unfold registerHashCount
    rw [hparse]
    have hfind : List.find? (fun v => v.email == d.email)
        (store ++ [(⟨nextId store, d.fullName, d.email, d.phone,
          hashPassword salt1 d.password, false, now1, now1⟩ : User)]) =
        some ⟨nextId store, d.fullName, d.email, d.phone,
          hashPassword salt1 d.password, false, now1, now1⟩ := by
      rw [List.find?_append]
      unfold getUserByEmail at hemail
      rw [hemail]
      simp
    simp only [getUserByEmail, hfind]
  · have hz : ∀ u ∈ store, ¬((fun v => v.email == d.email) u = true) := by
      unfold getUserByEmail at hemail
      exact List.find?_eq_none.mp hemail
    unfold countEmail
    rw [List.countP_append]
    rw [List.countP_eq_zero.mpr hz]
    simp [List.countP_cons]

/-- Concrete witness for `register_duplicate_spec`: registering
`regPayload0` twice against the empty store. -/
theorem register_duplicate_spec_witness :
    ∃ u tok, registerRoute [] 0 2 regPayload0 =
        (⟨201, Body.userWrapped u, CookieEffect.setTok tok⟩, [] ++ [u]) ∧
      registerRoute ([] ++ [u]) 1 3 regPayload0 =
        (⟨400, Body.msg "Email already in use", CookieEffect.keep⟩, [] ++ [u]) ∧
      registerHashCount ([] ++ [u]) regPayload0 = 0 ∧
      countEmail ([] ++ [u]) regData0.email = 1 :=
  register_duplicate_spec [] 0 2 1 3 regPayload0 regData0 (by decide) rfl

/-- A stored user whose password hash was produced from the plaintext
`password1` with salt 2. -/
def johnUser : User :=
  ⟨1, "John Doe", "john@example.com", "9876543210", hashPassword 2 "password1", false, 0, 0⟩

/-- A one-user store for the login runs. -/
def store1 : Store := [johnUser]

/-- Claim C4 counterexample: against `store1`, an unknown email and a wrong
password for the stored email fail with the identical error, yet the
unknown-email attempt performs zero bcrypt comparisons while the
wrong-password attempt performs one — the two failure paths do differing
hashing work, so timing parity does not hold. -/
theorem login_timing_counterexample :
    loginPure store1 ⟨"nobody@example.com", "password1"⟩ 0 =
      Except.error (JsError.jsErr "Invalid email or password") ∧
    loginPure store1 ⟨"john@example.com", "wrongpass1"⟩ 0 =
      Except.error (JsError.jsErr "Invalid email or password") ∧
    loginCompareCount (Except.ok (getUserByEmail store1 "nobody@example.com")) = 0 ∧
    loginCompareCount (Except.ok (getUserByEmail store1 "john@example.com")) = 1 ∧
    (0 : Nat) ≠ 1 := by decide

/-- Claim C4 (amended): an unknown email and a wrong password for an
existing email fail with the identical error value — hence identical
response shape — and correct credentials return a token that verifies and
decodes to that user's id; timing parity between the two failure cases,
however, does not hold: the unknown-email path performs no bcrypt
comparison while the wrong-password path performs one. -/
theorem login_spec (store : Store) (now salt : Nat) (e1 pw1 e2 pw2 pw : String)
    (u : User)
    (h1 : getUserByEmail store e1 = none)
    (h2 : getUserByEmail store e2 = some u)
    (h3 : comparePasswords pw2 u.password = false)
    (hpw : u.password = hashPassword salt pw) :
    loginPure store ⟨e1, pw1⟩ now =
      Except.error (JsError.jsErr "Invalid email or password") ∧
    loginPure store ⟨e2, pw2⟩ now =
      Except.error (JsError.jsErr "Invalid email or password") ∧
    loginCompareCount (Except.ok (getUserByEmail store e1)) = 0 ∧
    loginCompareCount (Except.ok (getUserByEmail store e2)) = 1 ∧
    loginPure store ⟨e2, pw⟩ now = Except.ok (u, generateToken now u.id) ∧
    (verifyToken now (generateToken now u.id)).map JwtPayload.id = some u.id := by
  refine ⟨?_, ?_, ?_, ?_, ?_, ?_⟩
  · unfold loginPure login
    rw [h1]
  · unfold loginPure login
    rw [h2]
    simp [h3]
  · unfold loginCompareCount
    rw [h1]
  · unfold loginCompareCount
    rw [h2]
  · unfold loginPure login
    rw [h2]
    have hcmp : comparePasswords pw u.password = true := by
      rw [hpw]
      exact comparePasswords_hashPassword salt pw
    simp [hcmp]
  · rw [verifyToken_generateToken]
    rfl

/-- Concrete witness for `login_spec`: the two failure runs and the success
run against `store1`. -/
theorem login_spec_witness :
    loginPure store1 ⟨"nobody@example.com", "password1"⟩ 0 =
      Except.error (JsError.jsErr "Invalid email or password") ∧
    loginPure store1 ⟨"john@example.com", "wrongpass1"⟩ 0 =
      Except.error (JsError.jsErr "Invalid email or password") ∧
    loginCompareCount (Except.ok (getUserByEmail store1 "nobody@example.com")) = 0 ∧
    loginCompareCount (Except.ok (getUserByEmail store1 "john@example.com")) = 1 ∧
    loginPure store1 ⟨"john@example.com", "password1"⟩ 0 =
      Except.ok (johnUser, generateToken 0 johnUser.id) ∧
    (verifyToken 0 (generateToken 0 johnUser.id)).map JwtPayload.id =
      some johnUser.id :=
  login_spec store1 0 2 "nobody@example.com" "password1" "john@example.com"
    "wrongpass1" "password1" johnUser (by decide) (by decide) (by decide) rfl

/-- Claim C7 counterexample: a store failure during login — the lookup
promise rejecting with `Error("connection refused")` — is answered 401 with
the underlying error's own message, not a 500 with a generic message. -/
theorem unexpected_error_counterexample :
    loginRoute (Except.error (JsError.jsErr "connection refused"))
        "john@example.com" "password1" 0 =
      ⟨401, Body.msg "connection refused", CookieEffect.keep⟩ ∧
    (⟨401, Body.msg "connection refused", CookieEffect.keep⟩ : Response).status ≠ 500 ∧
    (⟨401, Body.msg "connection refused", CookieEffect.keep⟩ : Response).body ≠
      Body.msg "Failed to login" := by decide

/-- Claim C7 (amended): unexpected errors are always caught at the endpoint
boundary — every injected failure still yields a response — but the mapping
is not the claimed generic 500: the authentication middleware answers 401
with the generic "Unauthorized"; the login endpoint answers 401 carrying a
thrown `Error`'s own message (exposing the underlying detail), and only a
thrown non-`Error` value gets the generic 500 "Failed to login". -/
theorem unexpected_error_spec :
    (∀ m e pw now creds, loginSchema e pw = Except.ok creds →
      loginRoute (Except.error (JsError.jsErr m)) e pw now =
        ⟨401, Body.msg m, CookieEffect.keep⟩) ∧
    (∀ v e pw now creds, loginSchema e pw = Except.ok creds →
      loginRoute (Except.error (JsError.nonError v)) e pw now =
        ⟨500, Body.msg "Failed to login", CookieEffect.keep⟩) ∧
    (∀ err now (req : Request) t d, req.cookieToken = some t →
      verifyToken now t = some d →
      isAuthenticatedE (fun _ => Except.error err) now req =
        MwResult.respond 401 (Body.msg "Unauthorized")) := by
  refine ⟨?_, ?_, ?_⟩
  · intro m e pw now creds hp
    unfold loginRoute
    rw [hp]
    rfl
  · intro v e pw now creds hp
    unfold loginRoute
    rw [hp]
    rfl
  · intro err now req t d hc hv
    unfold isAuthenticatedE
    rw [hc]
    simp [hv]

/-- Concrete witness for `unexpected_error_spec`: a rejected login lookup
and a rejected middleware lookup. -/
theorem unexpected_error_spec_witness :
    loginRoute (Except.error (JsError.jsErr "boom")) "a@b.com" "password1" 0 =
      ⟨401, Body.msg "boom", CookieEffect.keep⟩ ∧
    isAuthenticatedE (fun _ => Except.error (JsError.jsErr "down")) 0
        ⟨some (generateToken 0 1), none⟩ =
      MwResult.respond 401 (Body.msg "Unauthorized") :=
  ⟨unexpected_error_spec.1 "boom" "a@b.com" "password1" 0
     ⟨"a@b.com", "password1"⟩ (by decide),
   unexpected_error_spec.2.2 (JsError.jsErr "down") 0
     ⟨some (generateToken 0 1), none⟩ (generateToken 0 1) ⟨1, 0 + sevenDays⟩
     rfl (by decide)⟩

/-- The mixed-violation registration payload: malformed email, five-digit
phone, five-character password, and a confirmation that does not match. -/
def badPayload : RawRegisterPayload :=
  ⟨"John Doe", "not-an-email", "12345", "short", "different", none⟩

/-- Claim C8: when a registration payload violates the email format, the
phone format, the password minimum length and the password confirmation all
at once, the 400 validation error enumerates every violated field — the
confirmation issue included — not just the first violation encountered. -/
theorem register_validation_spec (p : RawRegisterPayload) (store : Store)
    (now salt : Nat)
    (hE : emailFormatOk p.email = false)
    (hP : phoneFormatOk p.phone = false)
    (hW : ¬ 8 ≤ p.password.length)
    (hC : p.password ≠ p.confirmPassword) :
    registerUserSchema p =
      Except.error [emailIssue, phoneIssue, passwordIssue, confirmIssue] ∧
    registerRoute store now salt p =
      (⟨400, Body.validation "Validation error"
          [emailIssue, phoneIssue, passwordIssue, confirmIssue],
        CookieEffect.keep⟩, store) := by
  have h : registerUserSchema p =
      Except.error [emailIssue, phoneIssue, passwordIssue, confirmIssue] := by
    unfold registerUserSchema
    simp [hE, hP, hW, hC]
  refine ⟨h, ?_⟩
  unfold registerRoute
  rw [h]

/-- Concrete witness for `register_validation_spec`: on `badPayload` the
validation error lists all four violated fields, `confirmPassword` among
them. -/
theorem register_validation_spec_witness :
    registerUserSchema badPayload =
      Except.error [emailIssue, phoneIssue, passwordIssue, confirmIssue] ∧
    registerRoute [] 0 0 badPayload =
      (⟨400, Body.validation "Validation error"
          [emailIssue, phoneIssue, passwordIssue, confirmIssue],
        CookieEffect.keep⟩, []) :=
  register_validation_spec badPayload [] 0 0 (by decide) (by decide)
    (by decide) (by decide)

end AndroidBackend
